import Mathlib

/-!
Verification of the fetch-translate-merge pipeline of the
cuisine-francais project against its design description.

The development shallowly embeds the two source files:

* `src/backend/get_recipes.py` — the functions `translate_text` and
  `get_and_translate_recipe`.  External effects are made explicit: the single
  Spoonacular HTTP round trip is an `HttpOutcome` value handed to the
  pipeline, the DeepL translator is an oracle `String → TransOutcome`, and
  every issued translation request is recorded in a call log.
* `src/backend/app.py` — the Flask handler `search_recipe` and, separately,
  its result-to-status mapping (the branch on `recipe_data` after the
  pipeline call, lines 31-42).

All definitions are executable and follow the Python control flow branch by
branch; the doc comment of each definition points at the lines it embeds.
-/

namespace CuisineFrancais

/- ------------------------------------------------------------------ -/
/- String utilities: substring containment as used by Python `in`.    -/
/- ------------------------------------------------------------------ -/

/-- Boolean test that `needle` is an initial segment of `hay`
(character lists). -/
def listIsInit : List Char → List Char → Bool
  | [], _ => true
  | _ :: _, [] => false
  | a :: as, b :: bs => a == b && listIsInit as bs

/-- Boolean test that `needle` occurs contiguously inside `hay`; this is the
semantics of the Python expression `needle in hay` on strings. -/
def listHasSub (needle : List Char) : List Char → Bool
  | [] => listIsInit needle []
  | b :: bs => listIsInit needle (b :: bs) || listHasSub needle bs

/-- Python `needle in hay` for strings. -/
def strContains (hay needle : String) : Bool :=
  listHasSub needle.data hay.data

/- ------------------------------------------------------------------ -/
/- Data model.                                                        -/
/- ------------------------------------------------------------------ -/

/-- Quota telemetry sub-dictionary of the result envelope
(get_recipes.py lines 91-95): the values of the keys `request`,
`used_total` and `left`. -/
structure QuotaInfo where
  request : Option String
  used_total : Option String
  left : Option String
deriving Repr, DecidableEq

/-- One entry of the `ingredients` list of the envelope
(get_recipes.py lines 158-161): keys `name_en` and `name_fr`. -/
structure Ingredient where
  name_en : String
  name_fr : String
deriving Repr, DecidableEq

/-- One raw entry of `extendedIngredients` in the Spoonacular response, as
consumed by the code: only the `original` field is read
(get_recipes.py line 155), and it may be absent. -/
structure RawIngredient where
  original : Option String
deriving Repr, DecidableEq

/-- One raw recipe of the Spoonacular `results` list, restricted to the
fields the code reads: `title`, `readyInMinutes`, `extendedIngredients`
(get_recipes.py lines 145-153); each may be absent. -/
structure RawRecipe where
  title : Option String
  readyInMinutes : Option Nat
  extendedIngredients : List RawIngredient
deriving Repr, DecidableEq

/-- Parsed JSON body of the search response: the `results` list
(get_recipes.py line 141); a missing or null `results` key and an empty
list are observationally identical to the code (both falsy). -/
structure SearchBody where
  results : List RawRecipe
deriving Repr, DecidableEq

/-- Response headers read by the code (get_recipes.py lines 136-138). -/
structure RespHeaders where
  quotaRequest : Option String
  quotaUsed : Option String
  quotaLeft : Option String
deriving Repr, DecidableEq

/-- Outcome of the single `requests.get` call to Spoonacular, as
distinguished by the except-clauses of get_recipes.py lines 167-185.
`response` carries the status code, the headers, the body parse outcome
(`Except.error d` models `response.json()` raising, a
`RequestException` subclass caught at line 177) and the raw body text
used by the `HTTPError` handler (line 169). The other constructors model
`requests.get` itself raising. -/
inductive HttpOutcome where
  | response (status : Nat) (headers : RespHeaders)
      (body : Except String SearchBody) (text : String)
  | connectionError (detail : String)
  | timeout (detail : String)
  | requestError (detail : String)
  | otherError (detail : String)

/-- Outcome of one `translator.translate_text` call: a translation, a
`deepl.exceptions.DeepLError` raised (caught at get_recipes.py line 61), or
any other exception raised (caught at line 65). -/
inductive TransOutcome where
  | ok (text : String)
  | deeplError (detail : String)
  | otherError (detail : String)
deriving Repr, DecidableEq

/-- Ambient translation state: the DeepL oracle and whether the module-level
`translator` object is non-None (get_recipes.py line 55). -/
structure TransEnv where
  oracle : String → TransOutcome
  hasTranslator : Bool

/-- The result envelope built by `get_and_translate_recipe`
(get_recipes.py lines 86-97). -/
structure RecipeData where
  title_en : Option String
  title_fr : Option String
  cooking_time_minutes : Option Nat
  ingredients : List Ingredient
  spoonacular_quota : QuotaInfo
  error : Option String
deriving Repr, DecidableEq

/-- Trace of the external calls one pipeline invocation performs:
how many recipe-search HTTP calls were issued and, in order, the text of
every translation request sent to DeepL. -/
structure CallLog where
  searchCalls : Nat
  transCalls : List String
deriving Repr, DecidableEq

/- ------------------------------------------------------------------ -/
/- Message strings of the source, verbatim.                           -/
/- ------------------------------------------------------------------ -/

/-- Message of get_recipes.py line 119. -/
def unauthorizedMsg : String := "Spoonacular API: Unauthorized. Check your API key."

/-- Message of get_recipes.py line 123; assigned on a 402 status and then
overwritten by the `HTTPError` handler (see `get_and_translate_recipe`). -/
def quotaExceededMsg : String :=
  "Spoonacular API: Quota Exceeded. You\x27ve reached your daily limit."

/-- Message of get_recipes.py line 127. -/
def endpointNotFoundMsg : String := "Spoonacular API: Endpoint not found. Check URL."

/-- Message of get_recipes.py line 169 (the f-string rendered with the
status code and the response text). -/
def httpErrorMsg (status : Nat) (text : String) : String :=
  "HTTP Error from Spoonacular API: " ++ (toString status ++ (" - " ++ text))

/-- Message of get_recipes.py line 172. -/
def connectionErrorMsg (detail : String) : String :=
  "Connection Error to Spoonacular API: " ++
    (detail ++ ". Check internet connection or API server.")

/-- Message of get_recipes.py line 175. -/
def timeoutErrorMsg (detail : String) : String :=
  "Timeout Error from Spoonacular API: " ++ (detail ++ ". API server too slow.")

/-- Message of get_recipes.py line 178. -/
def requestErrorMsg (detail : String) : String :=
  "General Request Error from Spoonacular API: " ++ detail

/-- Message of get_recipes.py line 184. -/
def unexpectedErrorMsg (detail : String) : String :=
  "An unexpected error occurred during recipe fetching/processing: " ++ detail

/-- Message of get_recipes.py line 164. -/
def noRecipesMsg (query cuisine : String) : String :=
  "No recipes found for \x27" ++ (query ++ ("\x27 in " ++ (cuisine ++ " cuisine.")))

/-- Placeholder of get_recipes.py line 64. -/
def apiErrorPlaceholder : String := "[Translation API Error]"

/-- Placeholder of get_recipes.py line 68. -/
def genErrorPlaceholder : String := "[Translation Error]"

/-- Placeholder of get_recipes.py line 56. -/
def noTranslatorMsg : String :=
  "[Translation Error: DeepL translator not initialized]"

/- ------------------------------------------------------------------ -/
/- translate_text (get_recipes.py lines 48-68).                       -/
/- ------------------------------------------------------------------ -/

/-- Shallow embedding of `translate_text` (get_recipes.py lines 48-68).
Returns the string produced by the Python function together with the list
of texts sent to DeepL by this call (empty or a singleton). The empty-text
check (line 53) precedes the translator-None check (line 55); a
`DeepLError` yields the API-error placeholder (line 64) and any other
exception the generic placeholder (line 68) — the function never raises. -/
def translate_text (env : TransEnv) (text : String) : String × List String :=
  if text = "" then ("", [])
  else if env.hasTranslator = false then (noTranslatorMsg, [])
  else
    match env.oracle text with
    | .ok t => (t, [text])
    | .deeplError _ => (apiErrorPlaceholder, [text])
    | .otherError _ => (genErrorPlaceholder, [text])

/-- The ingredient loop of get_recipes.py lines 154-161: for each raw entry
whose `original` field is present and non-empty (Python truthiness,
line 156), one `translate_text` call is made and a `{name_en, name_fr}`
pair is appended; other entries are skipped. Returns the built list and
the concatenated translation-call log, both in input order. -/
def processIngredients (env : TransEnv) : List RawIngredient → List Ingredient × List String
  | [] => ([], [])
  | ing :: rest =>
    let tail := processIngredients env rest
    match ing.original with
    | some s =>
      if s = "" then tail
      else
        let r := translate_text env s
        (⟨s, r.1⟩ :: tail.1, r.2 ++ tail.2)
    | none => tail

/-- The originals that the loop of get_recipes.py lines 154-161 actually
translates: the `original` fields that are present and non-empty, in input
order. -/
def truthyOriginals : List RawIngredient → List String
  | [] => []
  | ing :: rest =>
    match ing.original with
    | some s => if s = "" then truthyOriginals rest else s :: truthyOriginals rest
    | none => truthyOriginals rest

/-- Envelope as initialized at get_recipes.py lines 86-97: every field
None, `ingredients` empty, the three quota sub-fields None. -/
def initRecipeData : RecipeData :=
  { title_en := none, title_fr := none, cooking_time_minutes := none,
    ingredients := [], spoonacular_quota := ⟨none, none, none⟩, error := none }

/-- Envelope whose only populated field is `error`. -/
def errData (e : String) : RecipeData := { initRecipeData with error := some e }

/- ------------------------------------------------------------------ -/
/- get_and_translate_recipe (get_recipes.py lines 71-187).            -/
/- ------------------------------------------------------------------ -/

/-- Shallow embedding of `get_and_translate_recipe`
(get_recipes.py lines 71-187), branch by branch:

* a raised `ConnectionError`, `Timeout`, other `RequestException` or other
  exception is caught (lines 171-185) and becomes the corresponding error
  message — nothing propagates;
* status 401 and 404 return their fixed messages before
  `raise_for_status` (lines 118-129);
* on status 402 the code assigns `quotaExceededMsg` (line 123) but does
  NOT return; `response.raise_for_status()` (line 131) then raises
  `HTTPError` — as it does for every other 4xx/5xx status — and the handler
  at line 167 overwrites `error` with `httpErrorMsg` and returns.
  Consequently the header reads of lines 136-138 are never reached on any
  status ≥ 400, and the quota fields stay None there;
* otherwise `response.json()` runs (line 132; a parse failure raises a
  `RequestException` subclass, caught at line 177), the quota headers are
  stored (lines 136-138), and the `results` list is examined (line 141):
  empty yields the no-recipes message (line 164), otherwise the first
  recipe is copied, its truthy title is translated once (lines 149-150)
  and the ingredient loop runs (lines 152-161), with `error` left None.

The returned `CallLog` records the single `requests.get` call and the
translation requests in issue order (title first). -/
def get_and_translate_recipe (env : TransEnv) (search : HttpOutcome)
    (query : String) (cuisine : String) : RecipeData × CallLog :=
  match search with
  | .connectionError d => (errData (connectionErrorMsg d), ⟨1, []⟩)
  | .timeout d => (errData (timeoutErrorMsg d), ⟨1, []⟩)
  | .requestError d => (errData (requestErrorMsg d), ⟨1, []⟩)
  | .otherError d => (errData (unexpectedErrorMsg d), ⟨1, []⟩)
  | .response status headers body text =>
    if status = 401 then (errData unauthorizedMsg, ⟨1, []⟩)
    else if status = 404 then (errData endpointNotFoundMsg, ⟨1, []⟩)
    else if 400 ≤ status ∧ status < 600 then
      (errData (httpErrorMsg status text), ⟨1, []⟩)
    else
      match body with
      | .error d => (errData (requestErrorMsg d), ⟨1, []⟩)
      | .ok data =>
        let quota : QuotaInfo := ⟨headers.quotaRequest, headers.quotaUsed, headers.quotaLeft⟩
        match data.results with
        | [] =>
          ({ errData (noRecipesMsg query cuisine) with spoonacular_quota := quota }, ⟨1, []⟩)
        | first :: _ =>
          let tpair : Option String × List String :=
            match first.title with
            | some ttl =>
              if ttl = "" then (none, [])
              else
                let r := translate_text env ttl
                (some r.1, r.2)
            | none => (none, [])
          let ipair := processIngredients env first.extendedIngredients
          ({ title_en := first.title, title_fr := tpair.1,
             cooking_time_minutes := first.readyInMinutes,
             ingredients := ipair.1, spoonacular_quota := quota, error := none },
           ⟨1, tpair.2 ++ ipair.2⟩)

/- ------------------------------------------------------------------ -/
/- The boundary layer (app.py).                                       -/
/- ------------------------------------------------------------------ -/

/-- Embedding of the status mapping of `search_recipe`
(app.py lines 31-42): the branch on `recipe_data` after the pipeline call.
A truthy `error` containing `Quota Exceeded` or `Unauthorized` yields 402,
one containing `No recipes found` yields 404, any other truthy `error`
yields 500, and a falsy `error` yields the default 200. -/
def status_of (rd : RecipeData) : Nat :=
  match rd.error with
  | none => 200
  | some e =>
    if e = "" then 200
    else if strContains e "Quota Exceeded" || strContains e "Unauthorized" then 402
    else if strContains e "No recipes found" then 404
    else 500

/-- Observable result of one invocation of the Flask handler:
either an uncaught exception (which Flask turns into a 500 response) or a
JSON response with a status code. -/
inductive HandlerResult where
  | exc (detail : String)
  | jsonResponse (body : RecipeData) (status : Nat)
deriving Repr, DecidableEq

/-- Detail of the exception raised at app.py line 17. -/
def nameErrorDetail : String := "NameError: name \x27requests\x27 is not defined"

/-- Shallow embedding of the Flask handler `search_recipe`
(app.py lines 10-42). Its first statement,
`dish_query = requests.args.get(...)` at line 17, evaluates the name
`requests`; app.py imports `request` from flask but never imports the
`requests` module, so the name is unbound and the statement raises
`NameError` on every invocation, before the dish parameter is examined and
before any validation or pipeline call can run. The handler therefore
yields an uncaught exception for every input. -/
def search_recipe (_dish : Option String) : HandlerResult :=
  HandlerResult.exc nameErrorDetail

/- ------------------------------------------------------------------ -/
/- JSON rendering of the envelope (shape of the returned dict).       -/
/- ------------------------------------------------------------------ -/

/-- JSON-like values, used to state shape properties of the returned
dictionary. -/
inductive JVal where
  | jnull
  | jstr (s : String)
  | jnum (n : Nat)
  | jlist (items : List JVal)
  | jobj (fields : List (String × JVal))

/-- Renders an optional string the way `jsonify` renders the Python value. -/
def optStrJ : Option String → JVal
  | none => .jnull
  | some s => .jstr s

/-- Renders an optional number. -/
def optNatJ : Option Nat → JVal
  | none => .jnull
  | some n => .jnum n

/-- Renders one ingredient dict (get_recipes.py lines 158-161). -/
def Ingredient.toJ (i : Ingredient) : JVal :=
  .jobj [("name_en", .jstr i.name_en), ("name_fr", .jstr i.name_fr)]

/-- Renders the quota sub-dict (get_recipes.py lines 91-95). -/
def QuotaInfo.toJ (q : QuotaInfo) : JVal :=
  .jobj [("request", optStrJ q.request), ("used_total", optStrJ q.used_total),
         ("left", optStrJ q.left)]

/-- Renders the full envelope dict (get_recipes.py lines 86-97); keys in
construction order. -/
def RecipeData.toJ (rd : RecipeData) : JVal :=
  .jobj [("title_en", optStrJ rd.title_en),
         ("title_fr", optStrJ rd.title_fr),
         ("cooking_time_minutes", optNatJ rd.cooking_time_minutes),
         ("ingredients", .jlist (rd.ingredients.map Ingredient.toJ)),
         ("spoonacular_quota", rd.spoonacular_quota.toJ),
         ("error", optStrJ rd.error)]

/-- Well-formedness of the rendered envelope: an object with exactly the
six keys in order, whose `ingredients` value is a list and whose
`spoonacular_quota` value is an object with exactly the keys `request`,
`used_total`, `left`. -/
def wellFormedEnvelope (j : JVal) : Prop :=
  ∃ a b cmin ing qreq quse qleft er,
    j = .jobj [("title_en", a), ("title_fr", b), ("cooking_time_minutes", cmin),
               ("ingredients", .jlist ing),
               ("spoonacular_quota",
                 .jobj [("request", qreq), ("used_total", quse), ("left", qleft)]),
               ("error", er)]

/- ------------------------------------------------------------------ -/
/- Auxiliary predicates and concrete fixtures.                        -/
/- ------------------------------------------------------------------ -/

/-- Proposition that a message contains none of the three keywords the
status mapping of app.py lines 33-36 tests for. -/
abbrev noKeyword (e : String) : Prop :=
  strContains e "Quota Exceeded" = false ∧
    strContains e "Unauthorized" = false ∧
    strContains e "No recipes found" = false

/-- Outcomes of the search call on which `get_and_translate_recipe` takes
one of its failure branches (every raised exception; every status that is
401, 404 or triggers `raise_for_status`; a body that fails to parse).
A successful response with an empty `results` list is excluded: that is
the no-recipes outcome, not a classified failure. -/
def isFailureOutcome : HttpOutcome → Bool
  | .response status _ body _ =>
    if status = 401 then true
    else if status = 404 then true
    else if 400 ≤ status ∧ status < 600 then true
    else
      match body with
      | .error _ => true
      | .ok _ => false
  | _ => true

/-- Fixture: oracle translating everything to the empty string. -/
def env0 : TransEnv := ⟨fun _ => .ok "", true⟩

/-- Fixture: headers carrying no quota telemetry. -/
def hdr0 : RespHeaders := ⟨none, none, none⟩

/-- Fixture: headers carrying full quota telemetry. -/
def hdr402 : RespHeaders := ⟨some "1", some "150", some "0"⟩

/-- Fixture: oracle that fails with a `DeepLError` on one specific
ingredient and prefixes every other text with `T:`. -/
def env5 : TransEnv :=
  ⟨fun s => if s = "1 eggplant" then .deeplError "boom" else .ok ("T:" ++ s), true⟩

/-- Fixture: a found recipe with two translatable ingredients. -/
def recipe5 : RawRecipe :=
  ⟨some "Ratatouille", some 45, [⟨some "2 zucchini"⟩, ⟨some "1 eggplant"⟩]⟩

/-- Fixture: a found recipe exercising every ingredient shape — a
translatable entry, an entry with no `original` field, an entry with an
empty `original`, then another translatable entry. -/
def recipe7 : RawRecipe :=
  ⟨some "Ratatouille", some 45,
   [⟨some "2 zucchini"⟩, ⟨none⟩, ⟨some ""⟩, ⟨some "1 eggplant"⟩]⟩

/-- Fixture: a found recipe that lacks a `title` field. -/
def recipe4 : RawRecipe := ⟨none, some 45, []⟩

/- ------------------------------------------------------------------ -/
/- Helper lemmas.                                                     -/
/- ------------------------------------------------------------------ -/

/-- Initial segments extend along appends. -/
theorem listIsInit_extend (n : List Char) :
    ∀ a b, listIsInit n a = true → listIsInit n (a ++ b) = true := by
  induction n with
  | nil => intro a b _; rfl
  | cons c cs ih =>
    intro a b h
    cases a with
    | nil => simp [listIsInit] at h
    | cons x xs =>
      simp only [listIsInit, Bool.and_eq_true] at h
      simp only [List.cons_append, listIsInit, Bool.and_eq_true]
      exact ⟨h.1, ih xs b h.2⟩

/-- A list contains every list it starts with. -/
theorem listHasSub_of_init (n hay : List Char) (h : listIsInit n hay = true) :
    listHasSub n hay = true := by
  cases hay with
  | nil => simpa [listHasSub] using h
  | cons b bs => simp [listHasSub, h]

/-- String-level corollary: `p ++ s` contains any `n` that `p` starts
with. -/
theorem strContains_pre (p s n : String) (h : listIsInit n.data p.data = true) :
    strContains (p ++ s) n = true := by
  unfold strContains
  rw [String.data_append]
  exact listHasSub_of_init _ _ (listIsInit_extend _ _ _ h)

/-- A string with a nonempty left part is nonempty. -/
theorem append_ne_empty (p s : String) (hp : p.data ≠ []) : p ++ s ≠ "" := by
  intro h
  apply hp
  have hd : p.data ++ s.data = [] := by rw [← String.data_append, h]
  simp at hd
  exact hd.1

/-- Members of `truthyOriginals` are nonempty strings. -/
theorem mem_truthyOriginals_ne (l : List RawIngredient) :
    ∀ s, s ∈ truthyOriginals l → s ≠ "" := by
  induction l with
  | nil => intro s hs; simp [truthyOriginals] at hs
  | cons i rest ih =>
    intro s hs
    cases ho : i.original with
    | none =>
      simp only [truthyOriginals, ho] at hs
      exact ih s hs
    | some v =>
      by_cases hv : v = ""
      · simp [truthyOriginals, ho, hv] at hs
        exact ih s hs
      · simp [truthyOriginals, ho, hv] at hs
        rcases hs with h1 | h2
        · rw [h1]; exact hv
        · exact ih s h2

/-- A nonempty text is sent to DeepL exactly once when the translator is
initialized, whatever the oracle answers. -/
theorem translate_text_log (env : TransEnv) (hT : env.hasTranslator = true)
    (s : String) (hs : s ≠ "") : (translate_text env s).2 = [s] := by
  unfold translate_text
  rw [if_neg hs, hT]
  simp only [Bool.true_eq_false, if_false]
  cases env.oracle s <;> rfl

/-- A nonempty text translates to the oracle answer or the matching
placeholder when the translator is initialized. -/
theorem translate_text_val (env : TransEnv) (hT : env.hasTranslator = true)
    (s : String) (hs : s ≠ "") :
    (translate_text env s).1 =
      match env.oracle s with
      | .ok t => t
      | .deeplError _ => apiErrorPlaceholder
      | .otherError _ => genErrorPlaceholder := by
  unfold translate_text
  rw [if_neg hs, hT]
  simp only [Bool.true_eq_false, if_false]
  cases env.oracle s <;> rfl

/-- The ingredient loop builds exactly one `{name_en, name_fr}` pair per
truthy original, in input order, pairing each with its `translate_text`
result. -/
theorem processIngredients_items (env : TransEnv) (l : List RawIngredient) :
    (processIngredients env l).1 =
      (truthyOriginals l).map (fun s => (⟨s, (translate_text env s).1⟩ : Ingredient)) := by
  induction l with
  | nil => rfl
  | cons i rest ih =>
    cases ho : i.original with
    | none => simp [processIngredients, truthyOriginals, ho, ih]
    | some v =>
      by_cases hv : v = ""
      · simp [processIngredients, truthyOriginals, ho, hv, ih]
      · simp [processIngredients, truthyOriginals, ho, hv, ih]

/-- The ingredient loop issues exactly the truthy originals as translation
calls, in input order, when the translator is initialized. -/
theorem processIngredients_log (env : TransEnv) (hT : env.hasTranslator = true)
    (l : List RawIngredient) :
    (processIngredients env l).2 = truthyOriginals l := by
  induction l with
  | nil => rfl
  | cons i rest ih =>
    cases ho : i.original with
    | none => simp [processIngredients, truthyOriginals, ho, ih]
    | some v =>
      by_cases hv : v = ""
      · simp [processIngredients, truthyOriginals, ho, hv, ih]
      · simp [processIngredients, truthyOriginals, ho, hv, ih,
              translate_text_log env hT v hv]

/-- Status mapping on a falsy error: 200. -/
theorem status_of_none (rd : RecipeData) (hrd : rd.error = none) :
    status_of rd = 200 := by
  unfold status_of
  rw [hrd]

/-- Status mapping on an error naming the auth or quota keyword: 402. -/
theorem status_of_auth (rd : RecipeData) (e : String) (hrd : rd.error = some e)
    (he : e ≠ "")
    (h : (strContains e "Quota Exceeded" || strContains e "Unauthorized") = true) :
    status_of rd = 402 := by
  unfold status_of
  rw [hrd]
  simp [he, h]

/-- Status mapping on an error naming only the no-recipes keyword: 404. -/
theorem status_of_notfound (rd : RecipeData) (e : String) (hrd : rd.error = some e)
    (he : e ≠ "") (hq : strContains e "Quota Exceeded" = false)
    (hu : strContains e "Unauthorized" = false)
    (hn : strContains e "No recipes found" = true) :
    status_of rd = 404 := by
  unfold status_of
  rw [hrd]
  simp [he, hq, hu, hn]

/-- Status mapping on a nonempty error naming no keyword: 500. -/
theorem status_of_nokey (rd : RecipeData) (e : String) (hrd : rd.error = some e)
    (he : e ≠ "") (h : noKeyword e) : status_of rd = 500 := by
  obtain ⟨hq, hu, hn⟩ := h
  unfold status_of
  rw [hrd]
  simp [he, hq, hu, hn]

/-- The no-recipes message always contains the keyword the boundary layer
tests for. -/
theorem noRecipesMsg_found (q c : String) :
    strContains (noRecipesMsg q c) "No recipes found" = true :=
  strContains_pre _ _ _ (by decide)

/-- The no-recipes message is never the empty string. -/
theorem noRecipesMsg_ne (q c : String) : noRecipesMsg q c ≠ "" :=
  append_ne_empty _ _ (by decide)

/-- The generic HTTP-error message is never the empty string. -/
theorem httpErrorMsg_ne (s : Nat) (t : String) : httpErrorMsg s t ≠ "" :=
  append_ne_empty _ _ (by decide)

/-- The connection-error message is never the empty string. -/
theorem connectionErrorMsg_ne (d : String) : connectionErrorMsg d ≠ "" :=
  append_ne_empty _ _ (by decide)

/-- The timeout-error message is never the empty string. -/
theorem timeoutErrorMsg_ne (d : String) : timeoutErrorMsg d ≠ "" :=
  append_ne_empty _ _ (by decide)

/-- The request-error message is never the empty string. -/
theorem requestErrorMsg_ne (d : String) : requestErrorMsg d ≠ "" :=
  append_ne_empty _ _ (by decide)

/-- The unexpected-error message is never the empty string. -/
theorem unexpectedErrorMsg_ne (d : String) : unexpectedErrorMsg d ≠ "" :=
  append_ne_empty _ _ (by decide)

/- ------------------------------------------------------------------ -/
/- Claim theorems.                                                    -/
/- ------------------------------------------------------------------ -/

/-- C9: for every empty input string, the translation operation returns the
empty string and issues zero network calls to the translation provider —
`translate_text` short-circuits on falsy text (get_recipes.py line 53)
before any translator access, for every oracle and translator state. -/
theorem c9_empty_translation (env : TransEnv) : translate_text env "" = ("", []) := rfl

/-- C3 (failing behaviour): the claim says a missing or empty dish
parameter yields a synchronous bad-request classification with a
structured error body. In the code the handler raises before that check
can run: its first statement `dish_query = requests.args.get(...)`
(app.py line 17) evaluates the unbound name `requests` — only `request`
is imported from flask — so every invocation, with or without a dish
parameter, ends in an uncaught `NameError` (a 500 at the Flask boundary),
never in the 400 response of app.py lines 19-22. -/
theorem c3_handler_name_error :
    ∀ dish : Option String, search_recipe dish = HandlerResult.exc nameErrorDetail :=
  fun _ => rfl

/-- C10: for every query, cuisine, provider outcome (including raised
exceptions, modelled by the error constructors of `HttpOutcome` and
`TransOutcome`) and translator state, `get_and_translate_recipe` returns —
rather than propagates an exception — and the rendered envelope is an
object with exactly the six keys `title_en`, `title_fr`,
`cooking_time_minutes`, `ingredients`, `spoonacular_quota`, `error`, whose
`ingredients` value is a list and whose `spoonacular_quota` value carries
exactly the keys `request`, `used_total`, `left`. -/
theorem c10_total_envelope (env : TransEnv) (search : HttpOutcome) (q c : String) :
    wellFormedEnvelope (RecipeData.toJ (get_and_translate_recipe env search q c).1) :=
  ⟨_, _, _, _, _, _, _, _, rfl⟩

/-- C2 (failing behaviour): the claim says a quota-exceeded (402) search
response still gets its quota headers read into the envelope before the
failure is returned. In the code the 402 branch (get_recipes.py
line 122) does not return, `response.raise_for_status()` (line 131) then
raises `HTTPError` before the header reads of lines 136-138, and the
handler at line 167 overwrites the quota message and returns. At a 402
response that carries all three quota headers, the returned envelope has
all three quota fields None and its error is the generic HTTP-error
message, not the quota message of line 123. -/
theorem c2_quota_headers_dropped :
    (get_and_translate_recipe env0
        (.response 402 hdr402 (.ok ⟨[]⟩) "Payment Required") "q" "French").1.spoonacular_quota
      = ⟨none, none, none⟩
    ∧ (get_and_translate_recipe env0
        (.response 402 hdr402 (.ok ⟨[]⟩) "Payment Required") "q" "French").1.error
      = some (httpErrorMsg 402 "Payment Required")
    ∧ (get_and_translate_recipe env0
        (.response 402 hdr402 (.ok ⟨[]⟩) "Payment Required") "q" "French").1.error
      ≠ some quotaExceededMsg := by
  refine ⟨rfl, rfl, ?_⟩
  decide

/-- C1 (counterexample): the claim maps Unauthorized and Forbidden
upstream failures to the client-auth-error class (status 401 or 403). At
an Unauthorized (401) upstream response the boundary layer returns 402 —
the `"Unauthorized"` substring test at app.py line 33 funnels auth errors
into the payment-required bucket — which is neither 401 nor 403. -/
theorem c1_counterexample :
    status_of (get_and_translate_recipe env0
        (.response 401 hdr0 (.ok ⟨[]⟩) "") "ratatouille" "French").1 = 402
    ∧ (402 : Nat) ≠ 401 ∧ (402 : Nat) ≠ 403 := by
  refine ⟨?_, by decide, by decide⟩
  decide

/-- C4 (counterexample): the claim says a successful provider round trip
never terminates with `error` unset and `title_source` null. At a 200
response whose single result lacks a `title` field, the code takes the
found-recipe branch (get_recipes.py line 141), copies the absent title
(line 145) and never sets `error`: the returned envelope has both
`error = None` and `title_en = None`. -/
theorem c4_counterexample :
    (get_and_translate_recipe env0
        (.response 200 hdr0 (.ok ⟨[recipe4]⟩) "") "q" "French").1.error = none
    ∧ (get_and_translate_recipe env0
        (.response 200 hdr0 (.ok ⟨[recipe4]⟩) "") "q" "French").1.title_en = none :=
  ⟨rfl, rfl⟩

/-- C6 (counterexample): the claim asserts the not-found status class for
every zero-result invocation, but the dish name is free text and flows
verbatim into the no-recipes message. At the legal query `Unauthorized`
the message `No recipes found for ...Unauthorized... in French cuisine.`
trips the substring test of app.py line 33 before the `No recipes found`
test of line 36 can run, and the boundary returns 402, not 404 — even
though the envelope itself is exactly the one the claim describes. -/
theorem c6_counterexample :
    (get_and_translate_recipe env0
        (.response 200 hdr0 (.ok ⟨[]⟩) "") "Unauthorized" "French").1.error
      = some (noRecipesMsg "Unauthorized" "French")
    ∧ status_of (get_and_translate_recipe env0
        (.response 200 hdr0 (.ok ⟨[]⟩) "") "Unauthorized" "French").1 = 402
    ∧ (402 : Nat) ≠ 404 := by
  refine ⟨rfl, ?_, by decide⟩
  decide

/-- C6 (amended): for every pipeline invocation in which the search call
succeeds (status 200, parseable body) but carries zero results, the
envelope has `error` set to the exact no-recipes message naming the query
and the cuisine, `title_en` stays null, and no translation call is
issued; the boundary mapping classifies the result 404 (not-found)
provided the query and cuisine do not smuggle the `Quota Exceeded` or
`Unauthorized` keyword into the message — the counterexample shows the
402 bucket of app.py line 33 captures such queries first. -/
theorem c6_no_results (env : TransEnv) (hd : RespHeaders) (q c t : String)
    (hq : strContains (noRecipesMsg q c) "Quota Exceeded" = false)
    (hu : strContains (noRecipesMsg q c) "Unauthorized" = false) :
    (get_and_translate_recipe env (.response 200 hd (.ok ⟨[]⟩) t) q c).1.error
      = some (noRecipesMsg q c)
    ∧ (get_and_translate_recipe env (.response 200 hd (.ok ⟨[]⟩) t) q c).1.title_en = none
    ∧ (get_and_translate_recipe env (.response 200 hd (.ok ⟨[]⟩) t) q c).2.transCalls = []
    ∧ status_of (get_and_translate_recipe env (.response 200 hd (.ok ⟨[]⟩) t) q c).1 = 404 := by
  refine ⟨rfl, rfl, rfl, ?_⟩
  exact status_of_notfound _ (noRecipesMsg q c) rfl (noRecipesMsg_ne q c) hq hu
    (noRecipesMsg_found q c)

/-- Witness for C6 at a concrete no-results response. -/
theorem c6_no_results_witness :
    (get_and_translate_recipe env0
        (.response 200 hdr0 (.ok ⟨[]⟩) "") "zzznonexistent" "French").1.error
      = some (noRecipesMsg "zzznonexistent" "French")
    ∧ (get_and_translate_recipe env0
        (.response 200 hdr0 (.ok ⟨[]⟩) "") "zzznonexistent" "French").1.title_en = none
    ∧ (get_and_translate_recipe env0
        (.response 200 hdr0 (.ok ⟨[]⟩) "") "zzznonexistent" "French").2.transCalls = []
    ∧ status_of (get_and_translate_recipe env0
        (.response 200 hdr0 (.ok ⟨[]⟩) "") "zzznonexistent" "French").1 = 404 :=
  c6_no_results env0 hdr0 "zzznonexistent" "French" "" (by decide) (by decide)

/-- C7: for every found recipe (first result of a successful response),
the translation requests issued are exactly one for the title when the
title is present and non-empty, followed by exactly one per ingredient
entry whose `original` field is present and non-empty, in input order;
entries lacking a truthy `original` contribute neither a call nor an
output row, and the `name_en` column of the built `ingredients` list
equals the truthy originals in the provider order. Requires the
translator object to be initialized, as the running process guarantees
(get_recipes.py exits at startup otherwise). -/
theorem c7_translation_calls (env : TransEnv) (hT : env.hasTranslator = true)
    (first : RawRecipe) (rest : List RawRecipe) (hd : RespHeaders) (q c t : String) :
    (get_and_translate_recipe env (.response 200 hd (.ok ⟨first :: rest⟩) t) q c).2.transCalls
      = (match first.title with
          | some s => if s = "" then [] else [s]
          | none => []) ++ truthyOriginals first.extendedIngredients
    ∧ (get_and_translate_recipe env
        (.response 200 hd (.ok ⟨first :: rest⟩) t) q c).1.ingredients.map Ingredient.name_en
      = truthyOriginals first.extendedIngredients := by
  constructor
  · have hred : (get_and_translate_recipe env
          (.response 200 hd (.ok ⟨first :: rest⟩) t) q c).2.transCalls
        = (match first.title with
            | some ttl =>
              if ttl = "" then ((none : Option String), ([] : List String))
              else (some (translate_text env ttl).1, (translate_text env ttl).2)
            | none => (none, [])).2
          ++ (processIngredients env first.extendedIngredients).2 := rfl
    rw [hred, processIngredients_log env hT]
    cases ht : first.title with
    | none => rfl
    | some s =>
      by_cases hs : s = ""
      · simp [hs]
      · simp [hs, translate_text_log env hT s hs]
  · have hred : (get_and_translate_recipe env
          (.response 200 hd (.ok ⟨first :: rest⟩) t) q c).1.ingredients
        = (processIngredients env first.extendedIngredients).1 := rfl
    rw [hred, processIngredients_items env, List.map_map]
    have hcomp : (Ingredient.name_en ∘ fun s => (⟨s, (translate_text env s).1⟩ : Ingredient))
        = fun s => s := rfl
    rw [hcomp]
    simp

/-- Witness for C7 at a concrete recipe exercising every ingredient
shape. -/
theorem c7_translation_calls_witness :
    (get_and_translate_recipe env0
        (.response 200 hdr0 (.ok ⟨[recipe7]⟩) "") "q" "French").2.transCalls
      = (match recipe7.title with
          | some s => if s = "" then [] else [s]
          | none => []) ++ truthyOriginals recipe7.extendedIngredients
    ∧ (get_and_translate_recipe env0
        (.response 200 hdr0 (.ok ⟨[recipe7]⟩) "") "q" "French").1.ingredients.map
          Ingredient.name_en
      = truthyOriginals recipe7.extendedIngredients :=
  c7_translation_calls env0 rfl recipe7 [] hdr0 "q" "French" ""

/-- C8: for every search outcome on which the pipeline takes a classified
failure branch — auth (401), endpoint-not-found (404), quota or any other
4xx/5xx status, timeout, connection error, malformed (unparseable)
response, or an unknown exception — the returned envelope has `error`
set, zero translation calls are issued, and the one search call is the
only external call made (no retry). -/
theorem c8_failure_aborts (env : TransEnv) (q c : String) (search : HttpOutcome)
    (h : isFailureOutcome search = true) :
    (get_and_translate_recipe env search q c).1.error.isSome = true
    ∧ (get_and_translate_recipe env search q c).2.transCalls = []
    ∧ (get_and_translate_recipe env search q c).2.searchCalls = 1 := by
  cases search with
  | connectionError d => exact ⟨rfl, rfl, rfl⟩
  | timeout d => exact ⟨rfl, rfl, rfl⟩
  | requestError d => exact ⟨rfl, rfl, rfl⟩
  | otherError d => exact ⟨rfl, rfl, rfl⟩
  | response s hd b t =>
    simp only [isFailureOutcome] at h
    simp only [get_and_translate_recipe]
    by_cases h1 : s = 401
    · rw [if_pos h1]
      exact ⟨rfl, rfl, rfl⟩
    · rw [if_neg h1] at h ⊢
      by_cases h2 : s = 404
      · rw [if_pos h2]
        exact ⟨rfl, rfl, rfl⟩
      · rw [if_neg h2] at h ⊢
        by_cases h3 : 400 ≤ s ∧ s < 600
        · rw [if_pos h3]
          exact ⟨rfl, rfl, rfl⟩
        · rw [if_neg h3] at h ⊢
          cases b with
          | error d => exact ⟨rfl, rfl, rfl⟩
          | ok data => simp at h

/-- Witness for C8 at a concrete timeout failure. -/
theorem c8_failure_aborts_witness :
    (get_and_translate_recipe env0 (.timeout "boom") "q" "French").1.error.isSome = true
    ∧ (get_and_translate_recipe env0 (.timeout "boom") "q" "French").2.transCalls = []
    ∧ (get_and_translate_recipe env0 (.timeout "boom") "q" "French").2.searchCalls = 1 :=
  c8_failure_aborts env0 "q" "French" (.timeout "boom") rfl

/-- C5: for every found recipe, when the translation oracle fails with a
`DeepLError` on exactly one text `bad` and succeeds (returning `g s`) on
every other translated ingredient, the envelope keeps `error` unset, the
full ingredient list is still built in order, the failing item carries the
deterministic placeholder of get_recipes.py line 64 in its `name_fr`
field only, and every other ingredient keeps its successful translation —
the per-item failure aborts neither the rest of the loop nor the
pipeline. -/
theorem c5_single_failure (env : TransEnv) (hT : env.hasTranslator = true)
    (g : String → String) (bad d : String)
    (first : RawRecipe) (rest : List RawRecipe) (hd : RespHeaders) (q c t : String)
    (hbad : env.oracle bad = .deeplError d)
    (hok : ∀ s ∈ truthyOriginals first.extendedIngredients,
      s ≠ bad → env.oracle s = .ok (g s)) :
    (get_and_translate_recipe env
        (.response 200 hd (.ok ⟨first :: rest⟩) t) q c).1.error = none
    ∧ (get_and_translate_recipe env
        (.response 200 hd (.ok ⟨first :: rest⟩) t) q c).1.ingredients
      = (truthyOriginals first.extendedIngredients).map
          (fun s =>
            if s = bad then (⟨s, apiErrorPlaceholder⟩ : Ingredient) else ⟨s, g s⟩) := by
  refine ⟨rfl, ?_⟩
  have hred : (get_and_translate_recipe env
        (.response 200 hd (.ok ⟨first :: rest⟩) t) q c).1.ingredients
      = (processIngredients env first.extendedIngredients).1 := rfl
  rw [hred, processIngredients_items env]
  apply List.map_congr_left
  intro s hs
  have hsne := mem_truthyOriginals_ne _ s hs
  by_cases hb : s = bad
  · subst hb
    have hv : (translate_text env s).1 = apiErrorPlaceholder := by
      rw [translate_text_val env hT s hsne, hbad]
    simp [hv]
  · have hv : (translate_text env s).1 = g s := by
      rw [translate_text_val env hT s hsne, hok s hs hb]
    simp [hv, hb]

/-- Witness for C5: the oracle fails on the second of two ingredients. -/
theorem c5_single_failure_witness :
    (get_and_translate_recipe env5
        (.response 200 hdr0 (.ok ⟨[recipe5]⟩) "") "ratatouille" "French").1.error = none
    ∧ (get_and_translate_recipe env5
        (.response 200 hdr0 (.ok ⟨[recipe5]⟩) "") "ratatouille" "French").1.ingredients
      = (truthyOriginals recipe5.extendedIngredients).map
          (fun s =>
            if s = "1 eggplant" then (⟨s, apiErrorPlaceholder⟩ : Ingredient)
            else ⟨s, "T:" ++ s⟩) :=
  c5_single_failure env5 rfl (fun s => "T:" ++ s) "1 eggplant" "boom" recipe5 [] hdr0
    "ratatouille" "French" "" (by decide) (by decide)

/-- C4 (amended): the invariant holds on every successful provider round
trip whose matched recipe carries a `title` field: with zero results the
envelope has `error` set and `title_en` null, and with a first result
whose title is present it has `error` unset and `title_en` set — exactly
one of the two fields is populated in each case. The amendment excludes
only the case the counterexample exhibits: a matched first recipe lacking
a `title` field, where the code leaves both `error` and `title_en`
unset. -/
theorem c4_amended_invariant (env : TransEnv) (hd : RespHeaders) (q c t : String)
    (first : RawRecipe) (rest : List RawRecipe) (hfirst : first.title.isSome = true) :
    ((get_and_translate_recipe env
        (.response 200 hd (.ok ⟨[]⟩) t) q c).1.error.isSome = true
      ∧ (get_and_translate_recipe env
          (.response 200 hd (.ok ⟨[]⟩) t) q c).1.title_en = none)
    ∧ ((get_and_translate_recipe env
          (.response 200 hd (.ok ⟨first :: rest⟩) t) q c).1.error = none
      ∧ (get_and_translate_recipe env
          (.response 200 hd (.ok ⟨first :: rest⟩) t) q c).1.title_en.isSome = true) := by
  refine ⟨⟨rfl, rfl⟩, rfl, ?_⟩
  have hred : (get_and_translate_recipe env
      (.response 200 hd (.ok ⟨first :: rest⟩) t) q c).1.title_en = first.title := rfl
  rw [hred]
  exact hfirst

/-- Witness for the amended C4 at a concrete titled recipe. -/
theorem c4_amended_invariant_witness :
    ((get_and_translate_recipe env0
        (.response 200 hdr0 (.ok ⟨[]⟩) "") "q" "French").1.error.isSome = true
      ∧ (get_and_translate_recipe env0
          (.response 200 hdr0 (.ok ⟨[]⟩) "") "q" "French").1.title_en = none)
    ∧ ((get_and_translate_recipe env0
          (.response 200 hdr0 (.ok ⟨[recipe5]⟩) "") "q" "French").1.error = none
      ∧ (get_and_translate_recipe env0
          (.response 200 hdr0 (.ok ⟨[recipe5]⟩) "") "q" "French").1.title_en.isSome = true) :=
  c4_amended_invariant env0 hdr0 "q" "French" "" recipe5 [] (by decide)

/-- C1 (amended): writing the status classes as the Flask codes the
boundary returns (client-auth-error 401/403, payment-required 402,
not-found 404, server-error 500, ok 200), the mapping the code implements
is: an Unauthorized upstream failure lands in the shared
quota-or-auth keyword bucket of app.py line 33 and returns 402; Forbidden
(403) and QuotaExceeded (402) upstream responses surface as the generic
HTTP-error message — the 402 branch of get_recipes.py does not return and
`raise_for_status` rewrites its error — so both return 500 whenever the
upstream body text does not itself contain a mapped keyword; zero matched
recipes return 404 (for keyword-free query and cuisine); timeout,
connection, malformed-response and unknown failures return 500 (for
keyword-free details); success returns 200. -/
theorem c1_amended_mapping (env : TransEnv) (hd : RespHeaders) (q c t d : String)
    (first : RawRecipe) (rest : List RawRecipe)
    (h403 : noKeyword (httpErrorMsg 403 t))
    (h402 : noKeyword (httpErrorMsg 402 t))
    (hco : noKeyword (connectionErrorMsg d))
    (hti : noKeyword (timeoutErrorMsg d))
    (hre : noKeyword (requestErrorMsg d))
    (hun : noKeyword (unexpectedErrorMsg d))
    (hnq : strContains (noRecipesMsg q c) "Quota Exceeded" = false)
    (hnu : strContains (noRecipesMsg q c) "Unauthorized" = false) :
    status_of (get_and_translate_recipe env (.response 401 hd (.ok ⟨[]⟩) t) q c).1 = 402
    ∧ status_of (get_and_translate_recipe env (.response 403 hd (.ok ⟨[]⟩) t) q c).1 = 500
    ∧ status_of (get_and_translate_recipe env (.response 402 hd (.ok ⟨[]⟩) t) q c).1 = 500
    ∧ status_of (get_and_translate_recipe env (.response 200 hd (.ok ⟨[]⟩) t) q c).1 = 404
    ∧ status_of (get_and_translate_recipe env (.connectionError d) q c).1 = 500
    ∧ status_of (get_and_translate_recipe env (.timeout d) q c).1 = 500
    ∧ status_of (get_and_translate_recipe env (.requestError d) q c).1 = 500
    ∧ status_of (get_and_translate_recipe env (.otherError d) q c).1 = 500
    ∧ status_of (get_and_translate_recipe env
        (.response 200 hd (.ok ⟨first :: rest⟩) t) q c).1 = 200 := by
  refine ⟨?_, ?_, ?_, ?_, ?_, ?_, ?_, ?_, ?_⟩
  · exact status_of_auth _ unauthorizedMsg rfl (by decide) (by decide)
  · exact status_of_nokey _ (httpErrorMsg 403 t) rfl (httpErrorMsg_ne 403 t) h403
  · exact status_of_nokey _ (httpErrorMsg 402 t) rfl (httpErrorMsg_ne 402 t) h402
  · exact status_of_notfound _ (noRecipesMsg q c) rfl (noRecipesMsg_ne q c) hnq hnu
      (noRecipesMsg_found q c)
  · exact status_of_nokey _ (connectionErrorMsg d) rfl (connectionErrorMsg_ne d) hco
  · exact status_of_nokey _ (timeoutErrorMsg d) rfl (timeoutErrorMsg_ne d) hti
  · exact status_of_nokey _ (requestErrorMsg d) rfl (requestErrorMsg_ne d) hre
  · exact status_of_nokey _ (unexpectedErrorMsg d) rfl (unexpectedErrorMsg_ne d) hun
  · exact status_of_none _ rfl

/-- Witness for the amended C1 at concrete keyword-free inputs. -/
theorem c1_amended_mapping_witness :
    status_of (get_and_translate_recipe env0
        (.response 401 hdr0 (.ok ⟨[]⟩) "Forbidden") "ratatouille" "French").1 = 402
    ∧ status_of (get_and_translate_recipe env0
        (.response 403 hdr0 (.ok ⟨[]⟩) "Forbidden") "ratatouille" "French").1 = 500
    ∧ status_of (get_and_translate_recipe env0
        (.response 402 hdr0 (.ok ⟨[]⟩) "Forbidden") "ratatouille" "French").1 = 500
    ∧ status_of (get_and_translate_recipe env0
        (.response 200 hdr0 (.ok ⟨[]⟩) "Forbidden") "ratatouille" "French").1 = 404
    ∧ status_of (get_and_translate_recipe env0
        (.connectionError "boom") "ratatouille" "French").1 = 500
    ∧ status_of (get_and_translate_recipe env0
        (.timeout "boom") "ratatouille" "French").1 = 500
    ∧ status_of (get_and_translate_recipe env0
        (.requestError "boom") "ratatouille" "French").1 = 500
    ∧ status_of (get_and_translate_recipe env0
        (.otherError "boom") "ratatouille" "French").1 = 500
    ∧ status_of (get_and_translate_recipe env0
        (.response 200 hdr0 (.ok ⟨[recipe5]⟩) "Forbidden") "ratatouille" "French").1 = 200 :=
  c1_amended_mapping env0 hdr0 "ratatouille" "French" "Forbidden" "boom" recipe5 []
    (by decide) (by decide) (by decide) (by decide) (by decide) (by decide)
    (by decide) (by decide)

end CuisineFrancais
